import Mathlib

/-!
Verification of the Travel Buddy voice-assistant server (`server.py`).

This file is a shallow embedding of the parts of `server.py` that the
specification's claims are about: the Vapi webhook dispatcher
`call_vapi_webhook` (request construction, response parsing, error
conversion), the `TRAVEL_TOOLS` schema table, the per-tool handler
functions, the `register_function` calls in `run_bot`, the pipeline
parameters, and the client-connected greeting.

JSON values decoded by `response.json()` are modelled by the inductive
`Server.Json`; JSON numbers are modelled as integers (only truthiness of a
number is ever consulted by the source, so the fractional part is
irrelevant to every claim).  Python-level operations that `server.py`
applies to decoded values (`len`, `[0]`, `.get`, truthiness, `str()`,
`json.dumps`) are embedded as total Lean functions, with Python exceptions
made explicit through `Except` (the source wraps the whole webhook call in
`try/except Exception`, so every raised exception becomes a returned error
string).  Exception message texts are abbreviated constants: no claim
depends on their exact wording, only on the
`"Error calling travel service: "` prefix added by the `except` branch.
-/

namespace Server

/-- A decoded JSON value, as produced by `response.json()` in
`call_vapi_webhook`.  Numbers are modelled as integers. -/
inductive Json where
  | null
  | bool (b : Bool)
  | num (n : Int)
  | str (s : String)
  | arr (elems : List Json)
  | obj (fields : List (String × Json))

/-- Python truthiness of a decoded JSON value (`if tool_result`,
`arguments or {}`): `None`, `False`, `0`, `""`, `[]` and `{}` are falsy. -/
def truthy : Json → Bool
  | .null => false
  | .bool b => b
  | .num n => n != 0
  | .str s => s != ""
  | .arr xs => !xs.isEmpty
  | .obj fs => !fs.isEmpty

/-- Whether the value is a mapping (`isinstance(result, dict)`). -/
def Json.isObj : Json → Bool
  | .obj _ => true
  | _ => false

/-- Python dict lookup on the decoded object's fields (`result["key"]`,
`"key" in result`).  Decoded dicts have unique keys, so first-match lookup
is the dict semantics. -/
def lookupField : List (String × Json) → String → Option Json
  | [], _ => none
  | (k, v) :: rest, key => if k = key then some v else lookupField rest key

/-- Escape one character as `json.dumps` does for the ASCII values that
occur in this development (quote, backslash and common control
characters). -/
def jsonEscapeChar (c : Char) : String :=
  if c = '\"' then "\\\""
  else if c = '\\' then "\\\\"
  else if c = '\n' then "\\n"
  else if c = '\t' then "\\t"
  else if c = '\r' then "\\r"
  else c.toString

/-- String-body escaping of `json.dumps`. -/
def jsonEscape (s : String) : String :=
  String.join (s.data.map jsonEscapeChar)

mutual

/-- `json.dumps` with its default separators (`", "` and `": "`), as used
on lines 78 and 82 of `server.py`. -/
def jsonDumps : Json → String
  | .null => "null"
  | .bool true => "true"
  | .bool false => "false"
  | .num n => toString n
  | .str s => "\"" ++ jsonEscape s ++ "\""
  | .arr xs => "[" ++ dumpsElems xs ++ "]"
  | .obj fs => "\x7b" ++ dumpsFields fs ++ "\x7d"

/-- Comma-separated serialization of an array's elements. -/
def dumpsElems : List Json → String
  | [] => ""
  | [x] => jsonDumps x
  | x :: y :: rest => jsonDumps x ++ ", " ++ dumpsElems (y :: rest)

/-- Comma-separated serialization of an object's fields. -/
def dumpsFields : List (String × Json) → String
  | [] => ""
  | [(k, v)] => "\"" ++ jsonEscape k ++ "\": " ++ jsonDumps v
  | (k, v) :: f :: rest =>
      "\"" ++ jsonEscape k ++ "\": " ++ jsonDumps v ++ ", " ++ dumpsFields (f :: rest)

end

mutual

/-- Python `repr` of a decoded JSON value (strings in single quotes;
character escaping inside strings is elided, as every string this
development evaluates it on is plain text). -/
def pyRepr : Json → String
  | .null => "None"
  | .bool true => "True"
  | .bool false => "False"
  | .num n => toString n
  | .str s => "\x27" ++ s ++ "\x27"
  | .arr xs => "[" ++ pyReprElems xs ++ "]"
  | .obj fs => "\x7b" ++ pyReprFields fs ++ "\x7d"

/-- Comma-separated `repr` of a list's elements. -/
def pyReprElems : List Json → String
  | [] => ""
  | [x] => pyRepr x
  | x :: y :: rest => pyRepr x ++ ", " ++ pyReprElems (y :: rest)

/-- Comma-separated `repr` of a dict's items. -/
def pyReprFields : List (String × Json) → String
  | [] => ""
  | [(k, v)] => "\x27" ++ k ++ "\x27: " ++ pyRepr v
  | (k, v) :: f :: rest =>
      "\x27" ++ k ++ "\x27: " ++ pyRepr v ++ ", " ++ pyReprFields (f :: rest)

end

/-- Python `str()` of a decoded JSON value (line 83 of `server.py`):
identity on strings, `repr` on containers and scalars. -/
def pyStr : Json → String
  | .str s => s
  | .null => pyRepr .null
  | .bool b => pyRepr (.bool b)
  | .num n => pyRepr (.num n)
  | .arr xs => pyRepr (.arr xs)
  | .obj fs => pyRepr (.obj fs)

/-- Abbreviated message of the `TypeError` raised by `len` on a
non-sized value. -/
def lenErrorMsg : String := "object has no len()"

/-- Abbreviated message of the error raised by `[0]` on a non-indexable
value (`KeyError`/`TypeError`/`IndexError`). -/
def indexErrorMsg : String := "value not indexable at 0"

/-- Abbreviated message of the `AttributeError` raised by `.get` on a
non-dict value. -/
def getAttrErrorMsg : String := "object has no attribute get"

/-- Python `len(v)` on a decoded JSON value: defined on sequences,
strings and mappings, a `TypeError` otherwise. -/
def pyLen : Json → Except String Nat
  | .arr xs => .ok xs.length
  | .str s => .ok s.length
  | .obj fs => .ok fs.length
  | _ => .error lenErrorMsg

/-- Python `v[0]` on a decoded JSON value: first element of a list, first
character of a string, `KeyError` on a string-keyed dict, `TypeError`
otherwise. -/
def pyIndex0 : Json → Except String Json
  | .arr (x :: _) => .ok x
  | .arr [] => .error indexErrorMsg
  | .str s =>
      match s.data with
      | [] => .error indexErrorMsg
      | c :: _ => .ok (.str c.toString)
  | .obj _ => .error indexErrorMsg
  | _ => .error indexErrorMsg

/-- Python `v.get("result", "")` (line 77 of `server.py`): the field's
value or the empty-string default on a dict, an `AttributeError` on
anything else. -/
def pyGetResultField : Json → Except String Json
  | .obj fs => .ok ((lookupField fs "result").getD (Json.str ""))
  | _ => .error getAttrErrorMsg

/-- The `elif "result" ... else` part of the response parsing (lines
79-82 of `server.py`), reached when the dict has no `"results"` key or
its `"results"` value has length zero. -/
def resultFieldBranch (fields : List (String × Json)) : Json :=
  match lookupField fields "result" with
  | some v => v
  | none => Json.str (jsonDumps (Json.obj fields))

/-- The response-parsing logic of `call_vapi_webhook` (lines 75-83 of
`server.py`) applied to the decoded JSON body, with every Python
exception raised inside it surfaced as `Except.error` (the enclosing
`try` converts these into the error-string return). -/
def parseWebhookResponse (result : Json) : Except String Json :=
  match result with
  | .obj fields =>
    match lookupField fields "results" with
    | some resultsVal =>
      match pyLen resultsVal with
      | .error e => .error e
      | .ok n =>
        if n > 0 then
          match pyIndex0 resultsVal with
          | .error e => .error e
          | .ok first =>
            match pyGetResultField first with
            | .error e => .error e
            | .ok toolResult =>
                .ok (if truthy toolResult then toolResult
                     else Json.str (jsonDumps first))
        else .ok (resultFieldBranch fields)
    | none => .ok (resultFieldBranch fields)
  | other => .ok (Json.str (pyStr other))

/-- The webhook endpoint (line 41 of `server.py`). -/
def VAPI_WEBHOOK_URL : String :=
  "https://vapi-voice-agent.cfapps.eu10-004.hana.ondemand.com/vapi/webhook"

/-- The bearer token (line 42 of `server.py`). -/
def VAPI_AUTH_TOKEN : String := "ALxkU3FX_lyKF5zWYb0doeblCuvesYdkj1zHdrmUbxk"

/-- `tool_call_id = f"{function_name}-{uuid.uuid4().hex[:8]}"` (line 46),
with the eight-character uuid suffix passed in explicitly. -/
def mkToolCallId (functionName uuidHex : String) : String :=
  functionName ++ "-" ++ uuidHex

/-- `call_id = f"call-{uuid.uuid4().hex[:8]}"` (line 47), with the
eight-character uuid suffix passed in explicitly. -/
def mkCallId (uuidHex : String) : String :=
  "call-" ++ uuidHex

/-- `arguments or {}` (line 55): `None` (and an empty dict) becomes the
empty mapping. -/
def normalizeArguments (arguments : Option (List (String × Json))) : List (String × Json) :=
  match arguments with
  | none => []
  | some fs => fs

/-- The request payload built on lines 50-59 of `server.py`. -/
def webhookPayload (functionName : String) (arguments : Option (List (String × Json)))
    (toolCallId callId : String) : Json :=
  Json.obj [
    ("message", Json.obj [
      ("type", Json.str "tool-calls"),
      ("toolCallList", Json.arr [Json.obj [
        ("id", Json.str toolCallId),
        ("function", Json.obj [
          ("name", Json.str functionName),
          ("arguments", Json.obj (normalizeArguments arguments))])]])]),
    ("call", Json.obj [("id", Json.str callId)])]

/-- The headers passed to `client.post` (lines 66-69 of `server.py`). -/
def webhookHeaders : List (String × String) :=
  [("Authorization", "Bearer " ++ VAPI_AUTH_TOKEN),
   ("Content-Type", "application/json")]

/-- The timeout of the `httpx.AsyncClient` (line 62 of `server.py`,
`timeout=30.0`, in seconds). -/
def httpClientTimeoutSeconds : Nat := 30

/-- The HTTP request that `call_vapi_webhook` issues: endpoint, JSON
payload, headers and per-client timeout (lines 62-70 of `server.py`). -/
structure WebhookRequest where
  url : String
  payload : Json
  headers : List (String × String)
  timeoutSeconds : Nat

/-- Everything observable about one webhook round trip from inside the
`try` block: either the decoded JSON body of a successful call, or the
message of the exception raised by transport failure, timeout, a non-2xx
status (`raise_for_status`) or a JSON decode failure. -/
inductive WebhookOutcome where
  | failure (msg : String)
  | response (body : Json)

/-- The result text of `call_vapi_webhook`: a successfully parsed
response, or `f"Error calling travel service: {str(e)}"` (line 86) for
any exception raised inside the `try` block — whether by the HTTP round
trip itself or by the parsing code on an unexpected shape. -/
def webhookResult (outcome : WebhookOutcome) : Json :=
  match outcome with
  | .failure msg => Json.str ("Error calling travel service: " ++ msg)
  | .response body =>
    match parseWebhookResponse body with
    | .ok v => v
    | .error e => Json.str ("Error calling travel service: " ++ e)

/-- `call_vapi_webhook` (lines 45-86 of `server.py`): builds the request
from the function name, the arguments and the two fresh uuid suffixes,
and turns the round trip's outcome into the returned result text. -/
def call_vapi_webhook (functionName : String) (arguments : Option (List (String × Json)))
    (tcHex cHex : String) (outcome : WebhookOutcome) : WebhookRequest × Json :=
  ({ url := VAPI_WEBHOOK_URL
     payload := webhookPayload functionName arguments
       (mkToolCallId functionName tcHex) (mkCallId cHex)
     headers := webhookHeaders
     timeoutSeconds := httpClientTimeoutSeconds },
   webhookResult outcome)

/-- One property of a tool's `parameters.properties` table: its name and
its JSON-schema `type` (per-property descriptions are not consulted by
any claim and are elided). -/
structure ToolParam where
  name : String
  type : String
deriving DecidableEq

/-- One entry of `TRAVEL_TOOLS`: an OpenAI function declaration with its
name, description, properties and required-field list. -/
structure ToolDef where
  name : String
  description : String
  properties : List ToolParam
  required : List String
deriving DecidableEq

/-- The fixed tool-schema table (lines 92-185 of `server.py`). -/
def TRAVEL_TOOLS : List ToolDef := [
  { name := "get_current_date"
    description := "Get the current date. Call this for relative date calculations."
    properties := []
    required := [] },
  { name := "search_flights"
    description := "Search for available flights between two locations on a specific date."
    properties := [⟨"origin", "string"⟩, ⟨"destination", "string"⟩,
                   ⟨"departure_date", "string"⟩]
    required := ["origin", "destination", "departure_date"] },
  { name := "book_flight"
    description := "Book a selected flight. Only call after user explicitly confirms."
    properties := [⟨"journey_id", "string"⟩, ⟨"offer_id", "string"⟩,
                   ⟨"carrier_name", "string"⟩, ⟨"origin", "string"⟩,
                   ⟨"destination", "string"⟩, ⟨"departure_time", "string"⟩,
                   ⟨"arrival_time", "string"⟩, ⟨"price_amount", "number"⟩,
                   ⟨"currency_code", "string"⟩, ⟨"cabin_class", "string"⟩,
                   ⟨"passenger_name", "string"⟩]
    required := ["journey_id", "offer_id", "carrier_name", "origin",
                 "destination", "departure_time", "arrival_time",
                 "price_amount", "currency_code", "cabin_class"] },
  { name := "search_hotels"
    description := "Search for available hotels in a destination city."
    properties := [⟨"destination", "string"⟩, ⟨"check_in_date", "string"⟩,
                   ⟨"check_out_date", "string"⟩]
    required := ["destination", "check_in_date", "check_out_date"] },
  { name := "book_hotel"
    description := "Book a selected hotel. Only call after user explicitly confirms."
    properties := [⟨"hotel_name", "string"⟩, ⟨"hotel_address", "string"⟩,
                   ⟨"city", "string"⟩, ⟨"check_in_date", "string"⟩,
                   ⟨"check_out_date", "string"⟩, ⟨"room_type", "string"⟩,
                   ⟨"price_per_night", "number"⟩, ⟨"total_price", "number"⟩,
                   ⟨"currency_code", "string"⟩, ⟨"guest_name", "string"⟩,
                   ⟨"star_rating", "number"⟩]
    required := ["hotel_name", "hotel_address", "city", "check_in_date",
                 "check_out_date", "room_type", "price_per_night",
                 "total_price", "currency_code"] }]

/-- The required-field list that `TRAVEL_TOOLS` declares for a given
function name. -/
def requiredOf (toolName : String) : Option (List String) :=
  (TRAVEL_TOOLS.find? (fun t => t.name == toolName)).map ToolDef.required

/-- One `llm.register_function` call in `run_bot`: the function name and
the `cancel_on_interruption` keyword argument, `none` when the call omits
it (line 291 of `server.py` passes no such argument). -/
structure ToolRegistration where
  functionName : String
  cancelOnInterruption : Option Bool
deriving DecidableEq

/-- The five `register_function` calls (lines 291-295 of `server.py`). -/
def registeredFunctions : List ToolRegistration := [
  ⟨"get_current_date", none⟩,
  ⟨"search_flights", some false⟩,
  ⟨"book_flight", some false⟩,
  ⟨"search_hotels", some false⟩,
  ⟨"book_hotel", some false⟩]

/-- One message of the conversation context. -/
structure ChatMessage where
  role : String
  content : String
deriving DecidableEq

/-- The `OpenAILLMContext` constructed in `run_bot` (lines 305-306 of
`server.py`): the message list and the tool table. -/
structure LLMContextModel where
  messages : List ChatMessage
  tools : List ToolDef

/-- The context built at session construction: one system message whose
text is `get_system_prompt()` (abstracted here as a parameter, since no
claim consults the prompt text) and the fixed `TRAVEL_TOOLS` table. -/
def sessionContext (systemPrompt : String) : LLMContextModel :=
  { messages := [⟨"system", systemPrompt⟩], tools := TRAVEL_TOOLS }

/-- The explicit keyword arguments of the `PipelineParams` constructed in
`run_bot` (lines 321-325 of `server.py`); no timeout parameter of any
kind is passed. -/
def pipelineParamsKwargs : List (String × Bool) := [
  ("allow_interruptions", true),
  ("enable_metrics", true),
  ("enable_usage_metrics", true)]

/-- `WELCOME_MESSAGE` (lines 213-217 of `server.py`). -/
def WELCOME_MESSAGE : String :=
  "Hey there! I\x27m Travel Buddy, your personal travel assistant. " ++
  "I can help you search and book flights and hotels. " ++
  "Where would you like to go?"

/-- The frames `run_bot`'s transport event handlers queue on the pipeline
task. -/
inductive Frame where
  | ttsSpeak (text : String)
  | endFrame
deriving DecidableEq

/-- The frames queued by `on_client_connected` (line 332 of `server.py`):
exactly one `TTSSpeakFrame` carrying the welcome message. -/
def onClientConnectedFrames : List Frame := [Frame.ttsSpeak WELCOME_MESSAGE]

/-- The frames queued by `on_client_disconnected` (line 337). -/
def onClientDisconnectedFrames : List Frame := [Frame.endFrame]

/-- What processing one queued frame makes the pipeline do. -/
inductive BotAction where
  | synthesize (text : String)
  | llmInference
  | closeSession
deriving DecidableEq

/-- Modelled from the spec: the pipecat frame semantics live outside this
repository; per the spec, a `TTSSpeakFrame` is injected directly into the
Synthesizer input (bypassing the LLM) and an `EndFrame` ends the
session. -/
def frameActions : Frame → List BotAction
  | .ttsSpeak t => [BotAction.synthesize t]
  | .endFrame => [BotAction.closeSession]

/-- The actions triggered by the frames queued on client connect, in
order. -/
def connectActions : List BotAction :=
  onClientConnectedFrames.flatMap frameActions

/-- A calendar date, for `datetime.now()`. -/
structure Date where
  year : Nat
  month : Nat
  day : Nat

/-- Two-digit zero padding (`%m`, `%d`). -/
def pad2 (n : Nat) : String :=
  if n < 10 then "0" ++ toString n else toString n

/-- Four-digit zero padding (`%Y`). -/
def pad4 (n : Nat) : String :=
  if n < 10 then "000" ++ toString n
  else if n < 100 then "00" ++ toString n
  else if n < 1000 then "0" ++ toString n
  else toString n

/-- `datetime.now().strftime("%Y-%m-%d")` applied to a given "today". -/
def formatDate (d : Date) : String :=
  pad4 d.year ++ "-" ++ pad2 d.month ++ "-" ++ pad2 d.day

/-- `handle_get_current_date` (lines 223-226 of `server.py`), returned as
the list of `params.result_callback` invocation arguments, in order. -/
def handle_get_current_date (today : Date) : List Json :=
  [Json.str (formatDate today)]

/-- `handle_search_flights` (lines 229-233): calls the webhook and passes
its result to `params.result_callback`; the returned list holds the
callback invocation arguments, in order. -/
def handle_search_flights (arguments : List (String × Json)) (tcHex cHex : String)
    (outcome : WebhookOutcome) : List Json :=
  [(call_vapi_webhook "search_flights" (some arguments) tcHex cHex outcome).2]

/-- `handle_book_flight` (lines 236-240), as the list of callback
invocation arguments. -/
def handle_book_flight (arguments : List (String × Json)) (tcHex cHex : String)
    (outcome : WebhookOutcome) : List Json :=
  [(call_vapi_webhook "book_flight" (some arguments) tcHex cHex outcome).2]

/-- `handle_search_hotels` (lines 243-247), as the list of callback
invocation arguments. -/
def handle_search_hotels (arguments : List (String × Json)) (tcHex cHex : String)
    (outcome : WebhookOutcome) : List Json :=
  [(call_vapi_webhook "search_hotels" (some arguments) tcHex cHex outcome).2]

/-- `handle_book_hotel` (lines 250-254), as the list of callback
invocation arguments. -/
def handle_book_hotel (arguments : List (String × Json)) (tcHex cHex : String)
    (outcome : WebhookOutcome) : List Json :=
  [(call_vapi_webhook "book_hotel" (some arguments) tcHex cHex outcome).2]

/-- The hypothesis of the claim's `else` branches: the mapping does not
contain a non-empty `"results"` sequence (the key is absent, or maps to
an empty array). -/
def noNonemptyResults (fields : List (String × Json)) : Prop :=
  lookupField fields "results" = none ∨
  lookupField fields "results" = some (Json.arr [])

/-- Whether an Interrupt control frame arrives while the tool call is in
flight. -/
inductive TurnEvent where
  | noInterrupt
  | interruptMidCall
deriving DecidableEq

/-- Modelled from the spec: the pipecat dispatch machinery that runs a
registered handler is outside this repository.  Per the spec (§5: only
cancellable in-flight work is cancelled by an Interrupt; §9: async tool
handlers are cancelled-by-default unless cancellability is made explicit)
and the source comment on line 290 of `server.py`, an Interrupt arriving
mid-call cancels the handler — so none of its result callbacks run —
unless its registration carries `cancel_on_interruption=False`, in which
case the handler runs to completion regardless. -/
def dispatchCallbacks (reg : ToolRegistration) (event : TurnEvent)
    (completedCallbacks : List Json) : List Json :=
  match event with
  | .noInterrupt => completedCallbacks
  | .interruptMidCall =>
    if reg.cancelOnInterruption = some false then completedCallbacks else []

/-- Appending the same string on the left is cancellable. -/
theorem string_append_left_cancel {a b c : String} (h : a ++ b = a ++ c) : b = c := by
  have hd : a.data ++ b.data = a.data ++ c.data := by
    have h2 := congrArg String.data h
    simpa [String.data_append] using h2
  have h3 : b.data = c.data := List.append_cancel_left hd
  cases b
  cases c
  exact congrArg String.mk h3

/-- C1, counterexample: the claim covers every JSON response by its
three-branch precedence, so at the response with fields
`("results", [5])` it mandates the JSON serialization of the first
element, `"5"`; but `.get` on the integer raises an `AttributeError`,
which the `except` branch converts into the error string — the
dispatcher does not return `"5"` there. -/
theorem c1_counterexample :
    webhookResult (.response (Json.obj [("results", Json.arr [Json.num 5])])) ≠
      Json.str (jsonDumps (Json.num 5)) ∧
    webhookResult (.response (Json.obj [("results", Json.arr [Json.num 5])])) =
      Json.str ("Error calling travel service: " ++ getAttrErrorMsg) := by
  have hv : webhookResult (.response (Json.obj [("results", Json.arr [Json.num 5])])) =
      Json.str ("Error calling travel service: " ++ getAttrErrorMsg) := rfl
  refine ⟨?_, hv⟩
  rw [hv]
  intro h
  injection h with h2
  exact absurd h2 (by decide)

/-- C1, amended: when the response is a mapping whose non-empty
"results" sequence has a mapping as first element, the dispatcher
returns that element's "result" field when present and truthy, else the
JSON serialization of that element; a non-mapping first element raises
internally and yields the error string; else a "result" field is
returned verbatim; else the whole mapping is serialized. -/
theorem c1_amended :
    (∀ (fn : String) (args : Option (List (String × Json))) (a b : String)
       (fields ffs : List (String × Json)) (rest : List Json),
       lookupField fields "results" = some (Json.arr (Json.obj ffs :: rest)) →
       (call_vapi_webhook fn args a b (.response (Json.obj fields))).2 =
         (match lookupField ffs "result" with
          | some v => if truthy v then v else Json.str (jsonDumps (Json.obj ffs))
          | none => Json.str (jsonDumps (Json.obj ffs)))) ∧
    (∀ (fn : String) (args : Option (List (String × Json))) (a b : String)
       (fields : List (String × Json)) (first : Json) (rest : List Json),
       lookupField fields "results" = some (Json.arr (first :: rest)) →
       first.isObj = false →
       (call_vapi_webhook fn args a b (.response (Json.obj fields))).2 =
         Json.str ("Error calling travel service: " ++ getAttrErrorMsg)) ∧
    (∀ (fn : String) (args : Option (List (String × Json))) (a b : String)
       (fields : List (String × Json)) (v : Json),
       noNonemptyResults fields → lookupField fields "result" = some v →
       (call_vapi_webhook fn args a b (.response (Json.obj fields))).2 = v) ∧
    (∀ (fn : String) (args : Option (List (String × Json))) (a b : String)
       (fields : List (String × Json)),
       noNonemptyResults fields → lookupField fields "result" = none →
       (call_vapi_webhook fn args a b (.response (Json.obj fields))).2 =
         Json.str (jsonDumps (Json.obj fields))) := by
  refine ⟨?_, ?_, ?_, ?_⟩
  · intro fn args a b fields ffs rest h
    show webhookResult (.response (Json.obj fields)) = _
    rcases hres : lookupField ffs "result" with _ | v
    · simp [webhookResult, parseWebhookResponse, h, pyLen, pyIndex0, pyGetResultField,
        hres, truthy]
    · simp [webhookResult, parseWebhookResponse, h, pyLen, pyIndex0, pyGetResultField,
        hres]
  · intro fn args a b fields first rest h hobj
    show webhookResult (.response (Json.obj fields)) = _
    cases first
    case obj ffs => simp [Json.isObj] at hobj
    all_goals
      simp [webhookResult, parseWebhookResponse, h, pyLen, pyIndex0, pyGetResultField]
  · intro fn args a b fields v hno hres
    show webhookResult (.response (Json.obj fields)) = _
    rcases hno with h | h <;>
      simp [webhookResult, parseWebhookResponse, h, pyLen, resultFieldBranch, hres]
  · intro fn args a b fields hno hres
    show webhookResult (.response (Json.obj fields)) = _
    rcases hno with h | h <;>
      simp [webhookResult, parseWebhookResponse, h, pyLen, resultFieldBranch, hres]

/-- C1, witness: the three response shapes named by the claim evaluate
as the claim states. -/
theorem c1_witness :
    (call_vapi_webhook "search_flights" none "aaaa1111" "bbbb2222"
        (.response (Json.obj
          [("results", Json.arr [Json.obj [("result", Json.str "ok")]])]))).2 =
      Json.str "ok" ∧
    (call_vapi_webhook "search_flights" none "aaaa1111" "bbbb2222"
        (.response (Json.obj [("result", Json.str "x")]))).2 = Json.str "x" ∧
    (call_vapi_webhook "search_flights" none "aaaa1111" "bbbb2222"
        (.response (Json.obj [("foo", Json.num 1)]))).2 =
      Json.str "\x7b\"foo\": 1\x7d" := by
  refine ⟨?_, ?_, ?_⟩
  · exact c1_amended.1 "search_flights" none "aaaa1111" "bbbb2222"
      [("results", Json.arr [Json.obj [("result", Json.str "ok")]])]
      [("result", Json.str "ok")] [] rfl
  · exact c1_amended.2.2.1 "search_flights" none "aaaa1111" "bbbb2222"
      [("result", Json.str "x")] (Json.str "x") (Or.inl rfl) rfl
  · exact c1_amended.2.2.2 "search_flights" none "aaaa1111" "bbbb2222"
      [("foo", Json.num 1)] (Or.inl rfl) rfl

/-- C2: every failure of the webhook round trip (transport, HTTP status,
JSON decode, timeout — all of which raise inside the `try` block), and
every exception raised by the parsing code itself, makes
`call_vapi_webhook` return normally with the human-readable string
`"Error calling travel service: " + str(e)`; no exception crosses the
dispatcher boundary. -/
theorem c2_error_string_on_failure :
    (∀ (fn : String) (args : Option (List (String × Json))) (a b msg : String),
       (call_vapi_webhook fn args a b (.failure msg)).2 =
         Json.str ("Error calling travel service: " ++ msg)) ∧
    (∀ (fn : String) (args : Option (List (String × Json))) (a b : String)
       (body : Json) (e : String),
       parseWebhookResponse body = .error e →
       (call_vapi_webhook fn args a b (.response body)).2 =
         Json.str ("Error calling travel service: " ++ e)) := by
  constructor
  · intro fn args a b msg
    rfl
  · intro fn args a b body e h
    show webhookResult (.response body) = _
    simp [webhookResult, h]

/-- C2, witness: a timeout and a malformed body both come back as
prefixed error strings. -/
theorem c2_witness :
    (call_vapi_webhook "search_flights" none "aaaa1111" "bbbb2222"
        (.failure "Request timed out")).2 =
      Json.str ("Error calling travel service: " ++ "Request timed out") ∧
    (call_vapi_webhook "search_flights" none "aaaa1111" "bbbb2222"
        (.response (Json.obj [("results", Json.num 5)]))).2 =
      Json.str ("Error calling travel service: " ++ lenErrorMsg) :=
  ⟨c2_error_string_on_failure.1 "search_flights" none "aaaa1111" "bbbb2222"
      "Request timed out",
   c2_error_string_on_failure.2 "search_flights" none "aaaa1111" "bbbb2222"
      (Json.obj [("results", Json.num 5)]) lenErrorMsg rfl⟩

/-- C3, counterexample: not every registration carries
`cancel_on_interruption=False` — the `get_current_date` registration on
line 291 of `server.py` omits the keyword entirely. -/
theorem c3_counterexample :
    (¬ ∀ r ∈ registeredFunctions, r.cancelOnInterruption = some false) ∧
    ToolRegistration.mk "get_current_date" none ∈ registeredFunctions ∧
    (ToolRegistration.mk "get_current_date" none).cancelOnInterruption ≠ some false := by
  decide

/-- C3, amended: exactly the four webhook-backed tool registrations
(search_flights, book_flight, search_hotels, book_hotel) carry
`cancel_on_interruption=False`; `get_current_date` is registered without
the attribute, so it is left at the framework default. -/
theorem c3_four_webhook_tools_noncancellable :
    ∀ r ∈ registeredFunctions,
      (r.cancelOnInterruption = some false ↔ r.functionName ≠ "get_current_date") := by
  decide

/-- C3, witness: the search_flights registration carries the flag. -/
theorem c3_witness :
    (ToolRegistration.mk "search_flights" (some false)).cancelOnInterruption =
      some false :=
  (c3_four_webhook_tools_noncancellable
      (ToolRegistration.mk "search_flights" (some false)) (by decide)).mpr (by decide)

/-- C4: the schema table holds exactly the five named functions with
exactly the enumerated required-argument sets, and the context built at
session construction carries exactly this table. -/
theorem c4_tool_schema :
    TRAVEL_TOOLS.map ToolDef.name =
      ["get_current_date", "search_flights", "book_flight", "search_hotels",
       "book_hotel"] ∧
    requiredOf "get_current_date" = some [] ∧
    requiredOf "search_flights" = some ["origin", "destination", "departure_date"] ∧
    requiredOf "search_hotels" = some ["destination", "check_in_date", "check_out_date"] ∧
    requiredOf "book_flight" = some ["journey_id", "offer_id", "carrier_name", "origin",
      "destination", "departure_time", "arrival_time", "price_amount", "currency_code",
      "cabin_class"] ∧
    requiredOf "book_hotel" = some ["hotel_name", "hotel_address", "city",
      "check_in_date", "check_out_date", "room_type", "price_per_night", "total_price",
      "currency_code"] ∧
    ∀ systemPrompt : String, (sessionContext systemPrompt).tools = TRAVEL_TOOLS :=
  ⟨rfl, rfl, rfl, rfl, rfl, rfl, fun _ => rfl⟩

/-- C5: on client connect the queued frames start with (and consist of)
the TTSSpeakFrame carrying the fixed welcome text, so the first action
is its synthesis and no queued frame triggers an LLM inference. -/
theorem c5_welcome_direct_to_tts :
    onClientConnectedFrames.head? = some (Frame.ttsSpeak WELCOME_MESSAGE) ∧
    connectActions.head? = some (BotAction.synthesize WELCOME_MESSAGE) ∧
    BotAction.llmInference ∉ connectActions := by
  decide

/-- C6, counterexample: the claim's "even if the parent turn was
interrupted" fails for get_current_date — its registration (line 291 of
`server.py`) omits `cancel_on_interruption=False`, so an Interrupt
arriving mid-call cancels the handler and zero result callbacks run,
where the uninterrupted invocation would have produced exactly one. -/
theorem c6_counterexample :
    ToolRegistration.mk "get_current_date" none ∈ registeredFunctions ∧
    dispatchCallbacks (ToolRegistration.mk "get_current_date" none)
      .noInterrupt (handle_get_current_date ⟨2024, 3, 10⟩) =
      [Json.str "2024-03-10"] ∧
    dispatchCallbacks (ToolRegistration.mk "get_current_date" none)
      .interruptMidCall (handle_get_current_date ⟨2024, 3, 10⟩) = [] :=
  ⟨by decide, rfl, rfl⟩

/-- C6, amended: every handler invocation that runs to completion
produces exactly one result-callback invocation, whatever the webhook
outcome (on failure, with the error string); for the four webhook-backed
registrations — all those other than get_current_date — the dispatch
delivers those callbacks unchanged even when the parent turn is
interrupted, while the cancellable get_current_date registration
delivers them only on an uninterrupted turn. -/
theorem c6_amended :
    (∀ (args : List (String × Json)) (a b : String) (outcome : WebhookOutcome)
       (today : Date),
       (handle_get_current_date today).length = 1 ∧
       (handle_search_flights args a b outcome).length = 1 ∧
       (handle_book_flight args a b outcome).length = 1 ∧
       (handle_search_hotels args a b outcome).length = 1 ∧
       (handle_book_hotel args a b outcome).length = 1 ∧
       (∀ msg : String, handle_search_flights args a b (.failure msg) =
         [Json.str ("Error calling travel service: " ++ msg)])) ∧
    (∀ r ∈ registeredFunctions, r.functionName ≠ "get_current_date" →
       ∀ (event : TurnEvent) (cbs : List Json),
         dispatchCallbacks r event cbs = cbs) ∧
    (∀ (event : TurnEvent) (cbs : List Json),
       dispatchCallbacks (ToolRegistration.mk "get_current_date" none) event cbs =
         match event with
         | .noInterrupt => cbs
         | .interruptMidCall => []) := by
  refine ⟨fun _ _ _ _ _ => ⟨rfl, rfl, rfl, rfl, rfl, fun _ => rfl⟩, ?_, ?_⟩
  · intro r hr hn event cbs
    fin_cases hr
    · exact absurd rfl hn
    all_goals cases event <;> rfl
  · intro event cbs
    cases event <;> rfl

/-- C6, witness: a non-cancellable webhook tool interrupted mid-call
still delivers its single error-string callback. -/
theorem c6_witness :
    dispatchCallbacks (ToolRegistration.mk "search_flights" (some false))
      .interruptMidCall
      (handle_search_flights [] "aaaa1111" "bbbb2222"
        (.failure "Request timed out")) =
      [Json.str ("Error calling travel service: " ++ "Request timed out")] := by
  rw [c6_amended.2.1 (ToolRegistration.mk "search_flights" (some false))
      (by decide) (by decide) TurnEvent.interruptMidCall
      (handle_search_flights [] "aaaa1111" "bbbb2222" (.failure "Request timed out"))]
  exact (c6_amended.1 [] "aaaa1111" "bbbb2222" (.failure "x")
      ⟨2024, 3, 10⟩).2.2.2.2.2 "Request timed out"

/-- C7: the request payload has exactly the claimed nested shape with
the arguments normalized to the empty mapping when absent, the request
carries the Bearer Authorization header, and distinct uuid suffixes give
distinct correlation identifiers. -/
theorem c7_payload_shape_and_fresh_ids :
    ∀ (fn : String) (args : Option (List (String × Json))) (a b : String)
      (outcome : WebhookOutcome),
      (call_vapi_webhook fn args a b outcome).1.payload =
        Json.obj [
          ("message", Json.obj [
            ("type", Json.str "tool-calls"),
            ("toolCallList", Json.arr [Json.obj [
              ("id", Json.str (mkToolCallId fn a)),
              ("function", Json.obj [
                ("name", Json.str fn),
                ("arguments", Json.obj (normalizeArguments args))])]])]),
          ("call", Json.obj [("id", Json.str (mkCallId b))])] ∧
      normalizeArguments none = [] ∧
      (call_vapi_webhook fn args a b outcome).1.headers =
        [("Authorization", "Bearer " ++ VAPI_AUTH_TOKEN),
         ("Content-Type", "application/json")] ∧
      (∀ a2 : String, a ≠ a2 → mkToolCallId fn a ≠ mkToolCallId fn a2) ∧
      (∀ b2 : String, b ≠ b2 → mkCallId b ≠ mkCallId b2) := by
  intro fn args a b outcome
  refine ⟨rfl, rfl, rfl, ?_, ?_⟩
  · intro a2 hne heq
    exact hne (string_append_left_cancel heq)
  · intro b2 hne heq
    exact hne (string_append_left_cancel heq)

/-- C7, witness: distinct uuid suffixes yield distinct identifiers. -/
theorem c7_witness :
    mkToolCallId "search_flights" "aaaa1111" ≠ mkToolCallId "search_flights" "bbbb2222" ∧
    mkCallId "aaaa1111" ≠ mkCallId "bbbb2222" := by
  have h := c7_payload_shape_and_fresh_ids "search_flights" none "aaaa1111" "aaaa1111"
    (.failure "t")
  exact ⟨h.2.2.2.1 "bbbb2222" (by decide), h.2.2.2.2 "bbbb2222" (by decide)⟩

/-- C8: the get_current_date handler invokes its callback exactly once
with today's date formatted YYYY-MM-DD; at today = 2024-03-10 the single
result is "2024-03-10", and the output depends on nothing but today. -/
theorem c8_get_current_date :
    handle_get_current_date ⟨2024, 3, 10⟩ = [Json.str "2024-03-10"] ∧
    ∀ today : Date,
      handle_get_current_date today = [Json.str (formatDate today)] ∧
      (handle_get_current_date today).length = 1 :=
  ⟨rfl, fun _ => ⟨rfl, rfl⟩⟩

/-- C9: every webhook request carries the dispatcher's own 30-second
timeout, and the PipelineParams constructed by the orchestrator passes
exactly its three flags and no timeout parameter of any kind. -/
theorem c9_timeouts :
    (∀ (fn : String) (args : Option (List (String × Json))) (a b : String)
       (outcome : WebhookOutcome),
       (call_vapi_webhook fn args a b outcome).1.timeoutSeconds = 30) ∧
    pipelineParamsKwargs.map Prod.fst =
      ["allow_interruptions", "enable_metrics", "enable_usage_metrics"] ∧
    (pipelineParamsKwargs.all (fun kv => kv.1 != "timeout")) = true :=
  ⟨fun _ _ _ _ _ => rfl, rfl, rfl⟩

/-- C10: a non-mapping decoded response body is returned through Python
str() — which differs from its JSON serialization on strings and on
containers (repr quoting). -/
theorem c10_non_mapping_str :
    (∀ (fn : String) (args : Option (List (String × Json))) (a b : String) (v : Json),
       v.isObj = false →
       (call_vapi_webhook fn args a b (.response v)).2 = Json.str (pyStr v)) ∧
    pyStr (Json.str "hello") ≠ jsonDumps (Json.str "hello") ∧
    pyStr (Json.arr [Json.str "a", Json.num 1]) ≠
      jsonDumps (Json.arr [Json.str "a", Json.num 1]) ∧
    pyStr (Json.arr [Json.str "a", Json.num 1]) = "[\x27a\x27, 1]" ∧
    jsonDumps (Json.arr [Json.str "a", Json.num 1]) = "[\"a\", 1]" := by
  refine ⟨?_, by decide, by decide, by decide, by decide⟩
  intro fn args a b v h
  cases v
  case obj fs => simp [Json.isObj] at h
  all_goals rfl

/-- C10, witness: a list body comes back as its Python str() text. -/
theorem c10_witness :
    (call_vapi_webhook "search_flights" none "aaaa1111" "bbbb2222"
        (.response (Json.arr [Json.str "a", Json.num 1]))).2 =
      Json.str "[\x27a\x27, 1]" :=
  c10_non_mapping_str.1 "search_flights" none "aaaa1111" "bbbb2222"
    (Json.arr [Json.str "a", Json.num 1]) rfl

end Server

